import Mathlib

/-!
Shallow embedding of the Tracking-Backend location server.

Namespace `Tracking` models `src/server.js`: the in-memory driver map
(`drivers`, a JS `Map` keyed by `deviceId`), the flat in-memory location
buffer (`locations`, a JS array shared by all devices), the socket
handlers `register-driver`, `location-update` and `disconnect`, and the
HTTP query branches used when no durable store is configured.  The
durable store (MongoDB) is modelled by two booleans: `db` (is
`MONGODB_URI` configured) and `dbOk` (does the write succeed).  A save
through the `Location` mongoose model additionally validates the
coordinate ranges declared in `src/models/Location.js`
(`latitude ∈ [-90, 90]`, `longitude ∈ [-180, 180]`); all handler bodies
sit in a single `try` block, so a throwing save skips every statement
after it and control resumes in the `catch`, which only logs.

Namespace `Logistics` models the alternate server implementation
(`src/unnamed/part_001`): the `activeConnections` map keyed by socket id,
the Mongo-backed `Driver` and `Location` collections (modelled as
in-order lists), the `registerDriver` / `sendLocation` / `disconnect`
socket handlers and the periodic cleanup task (`setInterval`).
Coordinates are integers in the model; range reasoning only compares
against the integer bounds, so no real arithmetic is needed.  Timestamps
are naturals (milliseconds).
-/

namespace Tracking

/-- A location record as built by the `location-update` handler: the
client payload spread into an object whose `timestamp` and `isOnline`
fields the server overwrites.  The same shape is used for the incoming
payload (whose `timestamp`/`isOnline`, if any, are ignored). -/
structure LocationRec where
  deviceId : String
  driverName : String
  latitude : Int
  longitude : Int
  accuracy : Int
  speed : Int
  heading : Int
  timestamp : Nat
  isOnline : Bool
deriving DecidableEq, Repr

/-- In-memory driver record kept in the `drivers` map of `server.js`. -/
structure DriverRec where
  deviceId : String
  driverName : String
  isOnline : Bool
  lastSeen : Nat
  socketId : Option String
deriving DecidableEq, Repr

/-- Events emitted through `io.emit` by `server.js`. -/
inductive Event where
  | driversUpdated (ds : List DriverRec)
  | locationBroadcast (l : LocationRec)
deriving DecidableEq, Repr

/-- The in-memory state of `server.js`: the `drivers` map (association
list in insertion order, as a JS `Map`), the flat `locations` array and
the trace of broadcast events. -/
structure ServerState where
  drivers : List (String × DriverRec)
  locations : List LocationRec
  events : List Event
deriving DecidableEq, Repr

/-- `Map.set k v`: replace the value at `k` in place, or append `(k, v)`
when `k` is absent (JS `Map` insertion-order semantics). -/
def mapSet (k : String) (v : DriverRec) : List (String × DriverRec) → List (String × DriverRec)
  | [] => [(k, v)]
  | (k2, v2) :: rest => if k2 = k then (k, v) :: rest else (k2, v2) :: mapSet k v rest

/-- `Map.get k`: the value bound to `k`, if any. -/
def lookupDriver (k : String) : List (String × DriverRec) → Option DriverRec
  | [] => none
  | (k2, v2) :: rest => if k2 = k then some v2 else lookupDriver k rest

/-- The `drivers.has / get / mutate / set` sequence of the
`location-update` handler: when the device is present, set
`lastSeen := now` and `isOnline := true`; otherwise do nothing. -/
def touchDriver (d : String) (now : Nat) : List (String × DriverRec) → List (String × DriverRec)
  | [] => []
  | (k, v) :: rest =>
      if k = d then (k, { v with lastSeen := now, isOnline := true }) :: rest
      else (k, v) :: touchDriver d now rest

/-- Coordinate validation performed by the mongoose `Location` schema
(`src/models/Location.js`): `min`/`max` on latitude and longitude. -/
def validCoords (l : LocationRec) : Bool :=
  (-90 ≤ l.latitude && l.latitude ≤ 90) && (-180 ≤ l.longitude && l.longitude ≤ 180)

/-- Lines 212-216 of `server.js`: spread the client payload, then
overwrite `timestamp` with the server clock and force `isOnline`. -/
def liveLocation (ld : LocationRec) (now : Nat) : LocationRec :=
  { ld with timestamp := now, isOnline := true }

/-- Lines 247-252 of `server.js`: after the push, if the device now has
more than 100 samples, `findIndex` the first one for this device and
`splice` it out. -/
def evictOldest (d : String) (locs : List LocationRec) : List LocationRec :=
  if 100 < (locs.filter (fun l => l.deviceId == d)).length
  then locs.eraseP (fun l => l.deviceId == d)
  else locs

/-- The `register-driver` handler.  The DB upsert runs first inside the
`try`; a failing upsert (`db && !dbOk`) throws, so the in-memory `set`
and the broadcast are skipped and the `catch` only logs. -/
def registerDriver (db dbOk : Bool) (st : ServerState) (sock deviceId driverName : String)
    (now : Nat) : ServerState :=
  if db && !dbOk then st
  else
    let driverData : DriverRec :=
      { deviceId := deviceId, driverName := driverName, isOnline := true,
        lastSeen := now, socketId := some sock }
    let drivers2 := mapSet deviceId driverData st.drivers
    { st with drivers := drivers2,
              events := st.events ++ [Event.driversUpdated (drivers2.map Prod.snd)] }

/-- The `location-update` handler.  When the durable store is configured
the `newLocation.save()` both performs the write and runs the schema's
coordinate validators, so it throws when the store is unreachable or the
coordinates are out of range; the throw skips the in-memory push, the
eviction, the driver touch and the broadcast.  Without a configured
store the in-memory path always runs and nothing validates coordinates. -/
def locationUpdate (db dbOk : Bool) (st : ServerState) (ld : LocationRec) (now : Nat) :
    ServerState :=
  let location := liveLocation ld now
  if db && !(dbOk && validCoords location) then st
  else
    { drivers := touchDriver ld.deviceId now st.drivers,
      locations := evictOldest ld.deviceId (st.locations ++ [location]),
      events := st.events ++ [Event.locationBroadcast location] }

/-- The `disconnect` handler: if the socket carried a `deviceId` binding,
update the durable record (failure throws and skips the rest), then, if
the device is in the in-memory map, set `isOnline := false`,
`lastSeen := now` and broadcast the driver list. -/
def disconnectHandler (db dbOk : Bool) (st : ServerState) (bound : Option String) (now : Nat) :
    ServerState :=
  match bound with
  | none => st
  | some d =>
      if db && !dbOk then st
      else
        match lookupDriver d st.drivers with
        | none => st
        | some drv =>
            let drivers2 := mapSet d { drv with isOnline := false, lastSeen := now } st.drivers
            { st with drivers := drivers2,
                      events := st.events ++ [Event.driversUpdated (drivers2.map Prod.snd)] }

/-- Memory branch of `GET /api/locations/:deviceId` (lines 108-110):
`locations.filter(loc => loc.deviceId === deviceId)`, returned in array
(insertion) order. -/
def getDeviceLocations (st : ServerState) (d : String) : List LocationRec :=
  st.locations.filter (fun l => l.deviceId == d)

/-- Memory branch of `GET /api/locations` (lines 138-147): iterate the
`drivers` map in insertion order and, for each registered device that
has samples, push the last element of its filtered sample list. -/
def latestLocations (dm : List (String × DriverRec)) (locs : List LocationRec) :
    List LocationRec :=
  dm.filterMap (fun p => (locs.filter (fun l => l.deviceId == p.1)).getLast?)

/-- Folding a sequence of `location-update` events over the state. -/
def ingestSeq (db dbOk : Bool) (st : ServerState) : List (LocationRec × Nat) → ServerState
  | [] => st
  | (ld, now) :: rest => ingestSeq db dbOk (locationUpdate db dbOk st ld now) rest

end Tracking

namespace Logistics

/-- A `Location` document of the alternate server (`part_001`).  On the
`sendLocation` path the handler spreads the client payload, overwrites
`deviceId` from the connection binding, keeps the client `timestamp`
(`new Date(locationData.timestamp)`) and forces `isOnline := true`. -/
structure LocationDoc where
  deviceId : String
  driverName : String
  latitude : Int
  longitude : Int
  accuracy : Int
  timestamp : Nat
  speed : Int
  heading : Int
  isOnline : Bool
deriving DecidableEq, Repr

/-- The denormalised `currentLocation` sub-document of a `Driver`. -/
structure CurrentLocation where
  latitude : Int
  longitude : Int
  timestamp : Nat
deriving DecidableEq, Repr

/-- A `Driver` document of the alternate server. -/
structure DriverDoc where
  deviceId : String
  driverName : String
  isActive : Bool
  lastSeen : Nat
  currentLocation : Option CurrentLocation
deriving DecidableEq, Repr

/-- Value of the `activeConnections` map: `{ deviceId, driverName }`. -/
structure ConnInfo where
  deviceId : String
  driverName : String
deriving DecidableEq, Repr

/-- Events emitted by the alternate server: `io.emit` broadcasts and
per-socket `socket.emit` replies. -/
inductive LogiEvent where
  | driversUpdate (ds : List DriverDoc)
  | locUpdate (payload : LocationDoc) (sock : String)
  | errorReply (sock msg : String)
deriving DecidableEq, Repr

/-- State of the alternate server: the Mongo `Driver` collection (keyed
by `deviceId`, kept in insertion order), the Mongo `Location` collection
in insertion order, the `activeConnections` map keyed by socket id, and
the emitted-event trace. -/
structure LogiState where
  driversDB : List (String × DriverDoc)
  locationsDB : List LocationDoc
  activeConnections : List (String × ConnInfo)
  events : List LogiEvent
deriving DecidableEq, Repr

/-- `activeConnections.get(socket.id)`. -/
def lookupConn (k : String) : List (String × ConnInfo) → Option ConnInfo
  | [] => none
  | (k2, v2) :: rest => if k2 = k then some v2 else lookupConn k rest

/-- `activeConnections.set(socket.id, info)`. -/
def connSet (k : String) (v : ConnInfo) : List (String × ConnInfo) → List (String × ConnInfo)
  | [] => [(k, v)]
  | (k2, v2) :: rest => if k2 = k then (k, v) :: rest else (k2, v2) :: connSet k v rest

/-- `activeConnections.delete(socket.id)` (a key occurs at most once). -/
def connDelete (k : String) : List (String × ConnInfo) → List (String × ConnInfo)
  | [] => []
  | (k2, v2) :: rest => if k2 = k then rest else (k2, v2) :: connDelete k rest

/-- `Driver.findOneAndUpdate({deviceId}, {driverName, isActive: true,
lastSeen: now}, {upsert: true})`: update the named fields of the
existing document, or insert a fresh one. -/
def upsertDriver (d n : String) (now : Nat) : List (String × DriverDoc) → List (String × DriverDoc)
  | [] => [(d, { deviceId := d, driverName := n, isActive := true, lastSeen := now,
                 currentLocation := none })]
  | (k, v) :: rest =>
      if k = d then (k, { v with driverName := n, isActive := true, lastSeen := now }) :: rest
      else (k, v) :: upsertDriver d n now rest

/-- `Driver.findOneAndUpdate({deviceId}, {currentLocation, lastSeen})`
as run by `sendLocation` (no upsert: absent device is a no-op). -/
def driverOnLocation (d : String) (lat lng : Int) (now : Nat) :
    List (String × DriverDoc) → List (String × DriverDoc)
  | [] => []
  | (k, v) :: rest =>
      if k = d then
        (k, { v with currentLocation := some { latitude := lat, longitude := lng,
                                               timestamp := now },
                     lastSeen := now }) :: rest
      else (k, v) :: driverOnLocation d lat lng now rest

/-- `Driver.findOneAndUpdate({deviceId}, {lastSeen: now})` as run by the
`disconnect` handler: only `lastSeen` changes. -/
def driverOnDisconnect (d : String) (now : Nat) :
    List (String × DriverDoc) → List (String × DriverDoc)
  | [] => []
  | (k, v) :: rest =>
      if k = d then (k, { v with lastSeen := now }) :: rest
      else (k, v) :: driverOnDisconnect d now rest

/-- The `registerDriver` handler of the alternate server: upsert the
driver, bind the socket, broadcast the active driver list. -/
def logiRegister (st : LogiState) (sock deviceId driverName : String) (now : Nat) : LogiState :=
  let drivers2 := upsertDriver deviceId driverName now st.driversDB
  { st with driversDB := drivers2,
            activeConnections :=
              connSet sock { deviceId := deviceId, driverName := driverName }
                st.activeConnections,
            events := st.events ++
              [LogiEvent.driversUpdate ((drivers2.filter (fun p => p.2.isActive)).map Prod.snd)] }

/-- The `sendLocation` handler: reject unregistered sockets with an
error reply and no state change; otherwise save a `Location` document
carrying the client timestamp and `isOnline := true`, update the
driver's `currentLocation`/`lastSeen`, and broadcast the raw payload. -/
def sendLocation (st : LogiState) (sock : String) (ld : LocationDoc) (now : Nat) : LogiState :=
  match lookupConn sock st.activeConnections with
  | none => { st with events := st.events ++ [LogiEvent.errorReply sock "Driver not registered"] }
  | some ci =>
      let loc := { ld with deviceId := ci.deviceId, isOnline := true }
      { st with
          locationsDB := st.locationsDB ++ [loc],
          driversDB := driverOnLocation ci.deviceId ld.latitude ld.longitude now st.driversDB,
          events := st.events ++
            [LogiEvent.locUpdate { ld with deviceId := ci.deviceId,
                                           driverName := ci.driverName } sock] }

/-- The `disconnect` handler of the alternate server: if the socket is
bound, update only the driver's `lastSeen` and drop the binding; the
`isActive` flag is left untouched ("they might reconnect soon"). -/
def logiDisconnect (st : LogiState) (sock : String) (now : Nat) : LogiState :=
  match lookupConn sock st.activeConnections with
  | none => st
  | some ci =>
      { st with driversDB := driverOnDisconnect ci.deviceId now st.driversDB,
                activeConnections := connDelete sock st.activeConnections }

/-- Staleness threshold of the cleanup task: five minutes in
milliseconds. -/
def staleMs : Nat := 5 * 60 * 1000

/-- One tick of the `setInterval` cleanup task:
`Driver.updateMany({lastSeen: {$lt: now - 5min}}, {isActive: false})`.
The tick body emits nothing; the second component is the (empty) list of
events it broadcasts. -/
def sweepTick (now : Nat) (dm : List (String × DriverDoc)) :
    List (String × DriverDoc) × List LogiEvent :=
  (dm.map (fun p =>
      if p.2.lastSeen < now - staleMs then (p.1, { p.2 with isActive := false }) else p),
   [])

end Logistics

theorem mem_of_getLast?_eq {α : Type} {l : List α} {m : α} (h : l.getLast? = some m) :
    m ∈ l := by
  rcases List.mem_getLast?_eq_getLast (Option.mem_def.mpr h) with ⟨hne, hEq⟩
  exact hEq ▸ List.getLast_mem hne

namespace Tracking

theorem filter_eraseP_self (p : LocationRec → Bool) (l : List LocationRec)
    (h : l.filter p ≠ []) : (l.eraseP p).filter p = (l.filter p).tail := by
  have hx : ∃ x ∈ l, p x = true := by
    rcases List.exists_mem_of_ne_nil _ h with ⟨x, hx⟩
    exact ⟨x, (List.mem_filter.mp hx).1, (List.mem_filter.mp hx).2⟩
  rcases hx with ⟨a, ha, hpa⟩
  rcases List.exists_of_eraseP ha hpa with ⟨b, l1, l2, hl1, hpb, hdecomp, herase⟩
  rw [herase, hdecomp]
  have hfl1 : l1.filter p = [] := List.filter_eq_nil_iff.mpr (fun x hx => hl1 x hx)
  simp [List.filter_append, hfl1, List.filter_cons, hpb]

theorem filter_eraseP_ne (d d2 : String) (hne : d2 ≠ d) (l : List LocationRec) :
    (l.eraseP (fun x => x.deviceId == d)).filter (fun x => x.deviceId == d2)
      = l.filter (fun x => x.deviceId == d2) := by
  induction l with
  | nil => rfl
  | cons a t ih =>
      by_cases ha : a.deviceId = d
      · have h1 : (a.deviceId == d) = true := by simpa using ha
        have h2 : (a.deviceId == d2) = false := by
          rw [ha]; exact beq_eq_false_iff_ne.mpr (Ne.symm hne)
        simp [List.eraseP_cons, h1, List.filter_cons, h2]
      · have h1 : (a.deviceId == d) = false := beq_eq_false_iff_ne.mpr ha
        simp [List.eraseP_cons, h1, List.filter_cons, ih]

theorem sorted_getLast?_max :
    ∀ (l : List LocationRec) (m : LocationRec),
      List.Pairwise (fun a b => a.timestamp ≤ b.timestamp) l → l.getLast? = some m →
      ∀ x ∈ l, x.timestamp ≤ m.timestamp := by
  intro l
  induction l with
  | nil => intro m _ hm; simp at hm
  | cons a t ih =>
      intro m hs hm x hx
      rcases List.pairwise_cons.mp hs with ⟨hra, hst⟩
      cases t with
      | nil =>
          have ham : a = m := by simpa using hm
          have hxa : x = a := List.mem_singleton.mp hx
          rw [hxa, ham]
      | cons b t2 =>
          have hm2 : (b :: t2).getLast? = some m := by
            simpa [List.getLast?_cons_cons] using hm
          rcases List.mem_cons.mp hx with hxa | hxt
          · subst hxa; exact hra m (mem_of_getLast?_eq hm2)
          · exact ih m hst hm2 x hxt

theorem latestLocations_cons_none (p : String × DriverRec) (tl : List (String × DriverRec))
    (locs : List LocationRec)
    (h : (locs.filter (fun l => l.deviceId == p.1)).getLast? = none) :
    latestLocations (p :: tl) locs = latestLocations tl locs := by
  simp only [latestLocations, List.filterMap_cons, h]

theorem latestLocations_cons_some (p : String × DriverRec) (tl : List (String × DriverRec))
    (locs : List LocationRec) (b : LocationRec)
    (h : (locs.filter (fun l => l.deviceId == p.1)).getLast? = some b) :
    latestLocations (p :: tl) locs = b :: latestLocations tl locs := by
  simp only [latestLocations, List.filterMap_cons, h]

theorem latestLocations_filter_not_mem (d : String) (locs : List LocationRec) :
    ∀ dm : List (String × DriverRec), d ∉ dm.map Prod.fst →
      (latestLocations dm locs).filter (fun l => l.deviceId == d) = [] := by
  intro dm
  induction dm with
  | nil => intro _; rfl
  | cons hd tl ih =>
      intro h
      have h1 : ¬ hd.1 = d := fun hc => h (by simp [hc])
      have h2 : d ∉ tl.map Prod.fst := fun hc => h (by simp [hc])
      cases hc : (locs.filter (fun l => l.deviceId == hd.1)).getLast? with
      | none =>
          rw [latestLocations_cons_none hd tl locs hc]
          exact ih h2
      | some m =>
          have hmk : m.deviceId = hd.1 := by
            simpa using (List.mem_filter.mp (mem_of_getLast?_eq hc)).2
          have hmd : (m.deviceId == d) = false := by
            rw [hmk]; exact beq_eq_false_iff_ne.mpr h1
          rw [latestLocations_cons_some hd tl locs m hc]
          simpa [List.filter_cons, hmd] using ih h2

theorem latestLocations_filter_mem (d : String) (locs : List LocationRec) (m : LocationRec) :
    ∀ dm : List (String × DriverRec), (dm.map Prod.fst).Nodup → d ∈ dm.map Prod.fst →
      (locs.filter (fun l => l.deviceId == d)).getLast? = some m →
      (latestLocations dm locs).filter (fun l => l.deviceId == d) = [m] := by
  intro dm
  induction dm with
  | nil => intro _ hmem _; simp at hmem
  | cons hd tl ih =>
      intro hn hmem hlast
      rw [List.map_cons, List.nodup_cons] at hn
      obtain ⟨hn1, hn2⟩ := hn
      by_cases hk : hd.1 = d
      · subst hk
        have hmd : (m.deviceId == hd.1) = true :=
          (List.mem_filter.mp (mem_of_getLast?_eq hlast)).2
        rw [latestLocations_cons_some hd tl locs m hlast]
        simpa [List.filter_cons, hmd] using latestLocations_filter_not_mem hd.1 locs tl hn1
      · have hmem2 : d ∈ tl.map Prod.fst := by
          rcases List.mem_cons.mp hmem with h | h
          · exact absurd h.symm hk
          · exact h
        cases hc : (locs.filter (fun l => l.deviceId == hd.1)).getLast? with
        | none =>
            rw [latestLocations_cons_none hd tl locs hc]
            exact ih hn2 hmem2 hlast
        | some m2 =>
            have hmk : m2.deviceId = hd.1 := by
              simpa using (List.mem_filter.mp (mem_of_getLast?_eq hc)).2
            have hm2 : (m2.deviceId == d) = false := by
              rw [hmk]; exact beq_eq_false_iff_ne.mpr hk
            rw [latestLocations_cons_some hd tl locs m2 hc]
            simpa [List.filter_cons, hm2] using ih hn2 hmem2 hlast

theorem tail_append_single {α : Type} (l : List α) (x : α) (h : l ≠ []) :
    (l ++ [x]).tail = l.tail ++ [x] := by
  cases l with
  | nil => exact absurd rfl h
  | cons a t => rfl

theorem filter_evictOldest_self (d : String) (locs : List LocationRec) :
    (evictOldest d locs).filter (fun l => l.deviceId == d)
      = if 100 < (locs.filter (fun l => l.deviceId == d)).length
        then (locs.filter (fun l => l.deviceId == d)).tail
        else locs.filter (fun l => l.deviceId == d) := by
  unfold evictOldest
  by_cases h : 100 < (locs.filter (fun l => l.deviceId == d)).length
  · have hne : locs.filter (fun l => l.deviceId == d) ≠ [] := by
      intro hc; rw [hc] at h; simp at h
    simp only [if_pos h]
    exact filter_eraseP_self _ _ hne
  · simp only [if_neg h]

theorem filter_evictOldest_ne (d d2 : String) (hne : d2 ≠ d) (locs : List LocationRec) :
    (evictOldest d locs).filter (fun l => l.deviceId == d2)
      = locs.filter (fun l => l.deviceId == d2) := by
  unfold evictOldest
  by_cases h : 100 < (locs.filter (fun l => l.deviceId == d)).length
  · simp only [if_pos h]
    exact filter_eraseP_ne d d2 hne locs
  · simp only [if_neg h]

theorem getDeviceLocations_step_self (st : ServerState) (ld : LocationRec) (now : Nat) :
    getDeviceLocations (locationUpdate false true st ld now) ld.deviceId
      = if 100 < (getDeviceLocations st ld.deviceId).length + 1
        then (getDeviceLocations st ld.deviceId).tail ++ [liveLocation ld now]
        else getDeviceLocations st ld.deviceId ++ [liveLocation ld now] := by
  have hx : ((liveLocation ld now).deviceId == ld.deviceId) = true := by
    simp [liveLocation]
  have hfd : (st.locations ++ [liveLocation ld now]).filter (fun l => l.deviceId == ld.deviceId)
      = getDeviceLocations st ld.deviceId ++ [liveLocation ld now] := by
    simp [getDeviceLocations, List.filter_append, List.filter_cons, hx]
  show (evictOldest ld.deviceId (st.locations ++ [liveLocation ld now])).filter
      (fun l => l.deviceId == ld.deviceId) = _
  rw [filter_evictOldest_self, hfd]
  by_cases h : 100 < (getDeviceLocations st ld.deviceId).length + 1
  · have hne : getDeviceLocations st ld.deviceId ≠ [] := by
      intro hc; rw [hc] at h; simp at h
    rw [if_pos (by simpa using h), if_pos h, tail_append_single _ _ hne]
  · rw [if_neg (by simpa using h), if_neg h]

theorem getDeviceLocations_step_ne (st : ServerState) (ld : LocationRec) (now : Nat)
    (d2 : String) (hne : d2 ≠ ld.deviceId) :
    getDeviceLocations (locationUpdate false true st ld now) d2 = getDeviceLocations st d2 := by
  have hx : ((liveLocation ld now).deviceId == d2) = false := by
    show (ld.deviceId == d2) = false
    exact beq_eq_false_iff_ne.mpr (fun hc => hne hc.symm)
  show (evictOldest ld.deviceId (st.locations ++ [liveLocation ld now])).filter
      (fun l => l.deviceId == d2) = _
  rw [filter_evictOldest_ne ld.deviceId d2 hne]
  simp [getDeviceLocations, List.filter_append, List.filter_cons, hx]

theorem step_cap (st : ServerState) (ld : LocationRec) (now : Nat)
    (h : ∀ d3, (getDeviceLocations st d3).length ≤ 100) (d2 : String) :
    (getDeviceLocations (locationUpdate false true st ld now) d2).length ≤ 100 := by
  by_cases hd : d2 = ld.deviceId
  · subst hd
    rw [getDeviceLocations_step_self]
    by_cases hc : 100 < (getDeviceLocations st ld.deviceId).length + 1
    · rw [if_pos hc]
      have := h ld.deviceId
      simp [List.length_tail]
      omega
    · rw [if_neg hc]
      simp
      omega
  · rw [getDeviceLocations_step_ne st ld now d2 hd]
    exact h d2

theorem seq_cap :
    ∀ (pairs : List (LocationRec × Nat)) (st : ServerState),
      (∀ d3, (getDeviceLocations st d3).length ≤ 100) →
      ∀ d3, (getDeviceLocations (ingestSeq false true st pairs) d3).length ≤ 100 := by
  intro pairs
  induction pairs with
  | nil => intro st h d3; exact h d3
  | cons p rest ih =>
      intro st h d3
      exact ih (locationUpdate false true st p.1 p.2) (step_cap st p.1 p.2 h) d3

theorem ingestSeq_same_device (d : String) :
    ∀ (pairs : List (LocationRec × Nat)) (st : ServerState),
      (∀ l ∈ st.locations, l.deviceId = d) → (∀ p ∈ pairs, p.1.deviceId = d) →
      st.locations.length + pairs.length ≤ 100 →
      (ingestSeq false true st pairs).locations
        = st.locations ++ pairs.map (fun p => liveLocation p.1 p.2) := by
  intro pairs
  induction pairs with
  | nil => intro st _ _ _; simp [ingestSeq]
  | cons p rest ih =>
      intro st hall hpairs hlen
      have hd : p.1.deviceId = d := hpairs p (by simp)
      have hstep : (locationUpdate false true st p.1 p.2).locations
          = st.locations ++ [liveLocation p.1 p.2] := by
        show evictOldest p.1.deviceId (st.locations ++ [liveLocation p.1 p.2]) = _
        unfold evictOldest
        have hfilter : (st.locations ++ [liveLocation p.1 p.2]).filter
            (fun l => l.deviceId == p.1.deviceId)
            = st.locations ++ [liveLocation p.1 p.2] := by
          rw [List.filter_eq_self]
          intro a ha
          rcases List.mem_append.mp ha with ha | ha
          · simp [hall a ha, hd]
          · have hax : a = liveLocation p.1 p.2 := by simpa using ha
            simp [hax, liveLocation]
        rw [hfilter]
        have hnot : ¬ 100 < (st.locations ++ [liveLocation p.1 p.2]).length := by
          simp
          simp at hlen
          omega
        rw [if_neg hnot]
      have hall2 : ∀ l ∈ (locationUpdate false true st p.1 p.2).locations, l.deviceId = d := by
        intro l hl
        rw [hstep] at hl
        rcases List.mem_append.mp hl with hl | hl
        · exact hall l hl
        · have hlx : l = liveLocation p.1 p.2 := by simpa using hl
          rw [hlx]
          show p.1.deviceId = d
          exact hd
      have hpairs2 : ∀ q ∈ rest, q.1.deviceId = d := fun q hq => hpairs q (by simp [hq])
      have hlen2 : (locationUpdate false true st p.1 p.2).locations.length + rest.length ≤ 100 := by
        rw [hstep]
        simp
        simp at hlen
        omega
      show (ingestSeq false true (locationUpdate false true st p.1 p.2) rest).locations = _
      rw [ih (locationUpdate false true st p.1 p.2) hall2 hpairs2 hlen2, hstep]
      simp

theorem touchDriver_of_lookup_none (d : String) (now : Nat) :
    ∀ m : List (String × DriverRec), lookupDriver d m = none → touchDriver d now m = m := by
  intro m
  induction m with
  | nil => intro _; rfl
  | cons hd tl ih =>
      intro h
      by_cases hk : hd.1 = d
      · simp [lookupDriver, hk] at h
      · simpa [touchDriver, lookupDriver, hk] using ih (by simpa [lookupDriver, hk] using h)

theorem lookupDriver_mapSet_self (k : String) (v : DriverRec) :
    ∀ m : List (String × DriverRec), lookupDriver k (mapSet k v m) = some v := by
  intro m
  induction m with
  | nil => simp [mapSet, lookupDriver]
  | cons hd tl ih =>
      by_cases hk : hd.1 = k
      · simp [mapSet, lookupDriver, hk]
      · simpa [mapSet, lookupDriver, hk] using ih

theorem mapSet_mapSet_self (k : String) (v1 v2 : DriverRec) :
    ∀ m : List (String × DriverRec), mapSet k v2 (mapSet k v1 m) = mapSet k v2 m := by
  intro m
  induction m with
  | nil => simp [mapSet]
  | cons hd tl ih =>
      by_cases hk : hd.1 = k
      · simp [mapSet, hk]
      · simp [mapSet, hk, ih]

theorem countP_keys_zero (k : String) :
    ∀ m : List (String × DriverRec), k ∉ m.map Prod.fst →
      m.countP (fun p => p.1 == k) = 0 := by
  intro m
  induction m with
  | nil => intro _; rfl
  | cons hd tl ih =>
      intro h
      have h1 : ¬ hd.1 = k := fun hc => h (by simp [hc])
      have h2 : k ∉ tl.map Prod.fst := fun hc => h (by simp [hc])
      have : (hd.1 == k) = false := by simpa using h1
      simp [List.countP_cons, this, ih h2]

theorem countP_mapSet_one (k : String) (v : DriverRec) :
    ∀ m : List (String × DriverRec), (m.map Prod.fst).Nodup →
      (mapSet k v m).countP (fun p => p.1 == k) = 1 := by
  intro m
  induction m with
  | nil => intro _; simp [mapSet, List.countP_cons]
  | cons hd tl ih =>
      intro hn
      rw [List.map_cons, List.nodup_cons] at hn
      obtain ⟨hn1, hn2⟩ := hn
      by_cases hk : hd.1 = k
      · subst hk
        simp [mapSet, List.countP_cons, countP_keys_zero hd.1 tl hn1]
      · have : (hd.1 == k) = false := by simpa using hk
        simp [mapSet, hk, List.countP_cons, this, ih hn2]

end Tracking

namespace Logistics

theorem driverOnDisconnect_isActive (d : String) (now : Nat) :
    ∀ m : List (String × DriverDoc),
      (driverOnDisconnect d now m).map (fun p => (p.1, p.2.isActive))
        = m.map (fun p => (p.1, p.2.isActive)) := by
  intro m
  induction m with
  | nil => rfl
  | cons hd tl ih =>
      by_cases hk : hd.1 = d
      · simp [driverOnDisconnect, hk]
      · simp [driverOnDisconnect, hk, ih]

theorem driverOnLocation_isActive (d : String) (lat lng : Int) (now : Nat) :
    ∀ m : List (String × DriverDoc),
      (driverOnLocation d lat lng now m).map (fun p => (p.1, p.2.isActive))
        = m.map (fun p => (p.1, p.2.isActive)) := by
  intro m
  induction m with
  | nil => rfl
  | cons hd tl ih =>
      by_cases hk : hd.1 = d
      · simp [driverOnLocation, hk]
      · simp [driverOnLocation, hk, ih]

theorem lookupConn_not_mem (k : String) :
    ∀ l : List (String × ConnInfo), k ∉ l.map Prod.fst → lookupConn k l = none := by
  intro l
  induction l with
  | nil => intro _; rfl
  | cons hd tl ih =>
      intro h
      have h1 : ¬ hd.1 = k := fun hc => h (by simp [hc.symm])
      exact (by simpa [lookupConn, h1] using ih (fun hc => h (by simp [hc])))

theorem lookupConn_connDelete_self (k : String) :
    ∀ l : List (String × ConnInfo), (l.map Prod.fst).Nodup →
      lookupConn k (connDelete k l) = none := by
  intro l
  induction l with
  | nil => intro _; rfl
  | cons hd tl ih =>
      intro hn
      rw [List.map_cons, List.nodup_cons] at hn
      obtain ⟨hn1, hn2⟩ := hn
      by_cases hk : hd.1 = k
      · subst hk
        simpa [connDelete] using lookupConn_not_mem hd.1 tl hn1
      · simpa [connDelete, lookupConn, hk] using ih hn2

theorem upsertDriver_upsertDriver (d n : String) (t1 t2 : Nat) :
    ∀ m : List (String × DriverDoc),
      upsertDriver d n t2 (upsertDriver d n t1 m) = upsertDriver d n t2 m := by
  intro m
  induction m with
  | nil => simp [upsertDriver]
  | cons hd tl ih =>
      by_cases hk : hd.1 = d
      · simp [upsertDriver, hk]
      · simp [upsertDriver, hk, ih]

theorem logiCountP_keys_zero (k : String) :
    ∀ m : List (String × DriverDoc), k ∉ m.map Prod.fst →
      m.countP (fun p => p.1 == k) = 0 := by
  intro m
  induction m with
  | nil => intro _; rfl
  | cons hd tl ih =>
      intro h
      have h1 : ¬ hd.1 = k := fun hc => h (by simp [hc])
      have h2 : k ∉ tl.map Prod.fst := fun hc => h (by simp [hc])
      have : (hd.1 == k) = false := by simpa using h1
      simp [List.countP_cons, this, ih h2]

theorem countP_upsertDriver_one (d n : String) (t : Nat) :
    ∀ m : List (String × DriverDoc), (m.map Prod.fst).Nodup →
      (upsertDriver d n t m).countP (fun p => p.1 == d) = 1 := by
  intro m
  induction m with
  | nil => intro _; simp [upsertDriver, List.countP_cons]
  | cons hd tl ih =>
      intro hn
      rw [List.map_cons, List.nodup_cons] at hn
      obtain ⟨hn1, hn2⟩ := hn
      by_cases hk : hd.1 = d
      · subst hk
        simp [upsertDriver, List.countP_cons, logiCountP_keys_zero hd.1 tl hn1]
      · have : (hd.1 == d) = false := by simpa using hk
        simp [upsertDriver, hk, List.countP_cons, this, ih hn2]

theorem upsertDriver_isActive (d n : String) (t : Nat) :
    ∀ m : List (String × DriverDoc), (m.map Prod.fst).Nodup →
      ∀ p ∈ upsertDriver d n t m, p.1 = d → p.2.isActive = true := by
  intro m
  induction m with
  | nil =>
      intro _ p hp _
      simp [upsertDriver] at hp
      simp [hp]
  | cons hd tl ih =>
      intro hn p hp hpd
      rw [List.map_cons, List.nodup_cons] at hn
      obtain ⟨hn1, hn2⟩ := hn
      by_cases hk : hd.1 = d
      · simp [upsertDriver, hk] at hp
        rcases hp with hp | hp
        · simp [hp]
        · have hmem : p.1 ∈ tl.map Prod.fst := List.mem_map.mpr ⟨p, hp, rfl⟩
          rw [hpd, ← hk] at hmem
          exact absurd hmem hn1
      · simp [upsertDriver, hk] at hp
        rcases hp with hp | hp
        · subst hp; exact absurd hpd hk
        · exact ih hn2 p hp hpd

end Logistics

open Tracking Logistics

def c1ld : LocationRec := ⟨"D1", "Alice", 10, 20, 0, 0, 0, 0, false⟩

def c1st : ServerState := ⟨[("D1", ⟨"D1", "Alice", true, 0, some "s1"⟩)], [], []⟩

/-- Claim C1 counterexample: with the durable store configured, the
in-memory state after a failed durable write differs from the in-memory
state after a successful one — the failed write leaves the history
buffer, the driver map and the event trace untouched. -/
theorem c1_durable_failure_changes_memory :
    ¬ ((locationUpdate true false c1st c1ld 7).locations
          = (locationUpdate true true c1st c1ld 7).locations
        ∧ (locationUpdate true false c1st c1ld 7).drivers
          = (locationUpdate true true c1st c1ld 7).drivers
        ∧ (locationUpdate true false c1st c1ld 7).events
          = (locationUpdate true true c1st c1ld 7).events) := by
  decide

/-- Claim C1 (amended): on the live ingest path a failed durable write
is logged and suppressed from the connection, but it aborts the
in-memory path for that sample — the handler returns the state exactly
unchanged (no history append, no driver touch, no broadcast) — while a
successful durable write performs the same in-memory effects as
memory-only mode. -/
theorem c1_durable_failure_skips_memory (st : ServerState) (ld : LocationRec) (now : Nat)
    (hv : validCoords (liveLocation ld now) = true) :
    locationUpdate true false st ld now = st ∧
    locationUpdate true true st ld now = locationUpdate false true st ld now := by
  constructor
  · rfl
  · simp [locationUpdate, hv]

/-- Claim C1 witness: the amended statement evaluated at a concrete
state and sample. -/
theorem c1_durable_failure_skips_memory_witness :
    locationUpdate true false c1st c1ld 7 = c1st ∧
    locationUpdate true true c1st c1ld 7 = locationUpdate false true c1st c1ld 7 :=
  c1_durable_failure_skips_memory c1st c1ld 7 (by decide)

def c2ld : LocationRec := ⟨"D9", "Nina", 4, 5, 0, 0, 0, 0, false⟩

def c2doc : LocationDoc := ⟨"D9", "Nina", 4, 5, 0, 6, 0, 0, false⟩

/-- Claim C2 counterexample: in `server.js` a location sample submitted
on a connection that never registered (empty driver map, no binding) is
not rejected — it is appended to the in-memory history buffer and
broadcast. -/
theorem c2_unregistered_sample_recorded :
    (locationUpdate false true ⟨[], [], []⟩ c2ld 5).locations = [liveLocation c2ld 5] ∧
    (locationUpdate false true ⟨[], [], []⟩ c2ld 5).events
      = [Event.locationBroadcast (liveLocation c2ld 5)] := by
  decide

/-- Claim C2 (amended): on the `part_001` `sendLocation` path an
unregistered connection is rejected with an error reply and no state is
mutated; on the `server.js` `location-update` path no registration check
exists — the sample is appended to the history buffer regardless, though
no driver record is created for an unknown device. -/
theorem c2_unregistered_paths (lst : LogiState) (sock : String) (ld2 : LocationDoc)
    (now2 : Nat) (hb : lookupConn sock lst.activeConnections = none)
    (st : ServerState) (ld : LocationRec) (now : Nat)
    (hd : lookupDriver ld.deviceId st.drivers = none) :
    sendLocation lst sock ld2 now2
      = { lst with events := lst.events ++ [LogiEvent.errorReply sock "Driver not registered"] } ∧
    (locationUpdate false true st ld now).drivers = st.drivers ∧
    (locationUpdate false true st ld now).locations
      = evictOldest ld.deviceId (st.locations ++ [liveLocation ld now]) := by
  refine ⟨?_, ?_, rfl⟩
  · simp only [sendLocation, hb]
  · show touchDriver ld.deviceId now st.drivers = st.drivers
    exact touchDriver_of_lookup_none ld.deviceId now st.drivers hd

/-- Claim C2 witness: the amended statement evaluated on concrete
states. -/
theorem c2_unregistered_paths_witness :
    sendLocation ⟨[], [], [], []⟩ "s1" c2doc 6
      = { (⟨[], [], [], []⟩ : LogiState) with
          events := [LogiEvent.errorReply "s1" "Driver not registered"] } ∧
    (locationUpdate false true ⟨[], [], []⟩ c2ld 5).drivers = [] ∧
    (locationUpdate false true ⟨[], [], []⟩ c2ld 5).locations
      = evictOldest c2ld.deviceId ([] ++ [liveLocation c2ld 5]) :=
  c2_unregistered_paths ⟨[], [], [], []⟩ "s1" c2doc 6 rfl ⟨[], [], []⟩ c2ld 5 rfl

def c3ld : LocationRec := ⟨"D2", "Bob", 200, 0, 0, 0, 0, 0, false⟩

/-- Claim C3 counterexample: with no durable store configured, a sample
with latitude 200 (out of range) is accepted into the in-memory history
buffer and is retrievable from the per-device history query. -/
theorem c3_out_of_range_in_memory :
    validCoords (liveLocation c3ld 3) = false ∧
    (locationUpdate false true ⟨[], [], []⟩ c3ld 3).locations = [liveLocation c3ld 3] ∧
    getDeviceLocations (locationUpdate false true ⟨[], [], []⟩ c3ld 3) "D2"
      = [liveLocation c3ld 3] := by
  decide

/-- Claim C3 (amended): when the durable store is configured,
out-of-range coordinates make the schema-validated save throw, so the
sample appears neither in persistence nor in memory (the handler aborts
unchanged); in memory-only mode no coordinate validation is performed
and the out-of-range sample is stored in the history buffer. -/
theorem c3_range_validation (st : ServerState) (ld : LocationRec) (now : Nat) (dbOk : Bool)
    (hv : validCoords (liveLocation ld now) = false) :
    locationUpdate true dbOk st ld now = st ∧
    (locationUpdate false true st ld now).locations
      = evictOldest ld.deviceId (st.locations ++ [liveLocation ld now]) := by
  refine ⟨?_, rfl⟩
  simp [locationUpdate, hv]

/-- Claim C3 witness: the amended statement evaluated at a concrete
out-of-range sample. -/
theorem c3_range_validation_witness :
    locationUpdate true true ⟨[], [], []⟩ c3ld 3 = ⟨[], [], []⟩ ∧
    (locationUpdate false true ⟨[], [], []⟩ c3ld 3).locations
      = evictOldest c3ld.deviceId ([] ++ [liveLocation c3ld 3]) :=
  c3_range_validation ⟨[], [], []⟩ c3ld 3 true (by decide)

def c4st : ServerState := ⟨[("D1", ⟨"D1", "Alice", true, 0, some "s1"⟩)], [], []⟩

/-- Claim C4 counterexample: in `server.js` the disconnect handler flips
the driver's online flag to `false` immediately — the flag is not
unchanged by unbind. -/
theorem c4_disconnect_sets_offline :
    (lookupDriver "D1" c4st.drivers).map (fun v => v.isOnline) = some true ∧
    (lookupDriver "D1" (disconnectHandler false true c4st (some "D1") 10).drivers).map
      (fun v => v.isOnline) = some false := by
  decide

/-- Claim C4 (amended): the `part_001` disconnect handler matches the
claim — it removes only the connection binding and updates `lastSeen`,
leaving every driver's active flag unchanged — but the `server.js`
disconnect handler immediately sets the bound driver's online flag to
`false` together with `lastSeen`. -/
theorem c4_disconnect_behaviour (lst : LogiState) (sock : String) (now : Nat)
    (hnod : (lst.activeConnections.map Prod.fst).Nodup)
    (st : ServerState) (d : String) (drv : DriverRec) (now2 : Nat)
    (hl : lookupDriver d st.drivers = some drv) :
    ((logiDisconnect lst sock now).driversDB.map (fun p => (p.1, p.2.isActive)))
      = lst.driversDB.map (fun p => (p.1, p.2.isActive)) ∧
    lookupConn sock (logiDisconnect lst sock now).activeConnections = none ∧
    lookupDriver d (disconnectHandler false true st (some d) now2).drivers
      = some { drv with isOnline := false, lastSeen := now2 } := by
  refine ⟨?_, ?_, ?_⟩
  · cases hb : lookupConn sock lst.activeConnections with
    | none => simp only [logiDisconnect, hb]
    | some ci =>
        simp only [logiDisconnect, hb]
        exact driverOnDisconnect_isActive ci.deviceId now lst.driversDB
  · cases hb : lookupConn sock lst.activeConnections with
    | none => simp only [logiDisconnect, hb]
    | some ci =>
        simp only [logiDisconnect, hb]
        exact lookupConn_connDelete_self sock lst.activeConnections hnod
  · simp only [disconnectHandler, hl, Bool.false_and, Bool.not_true, if_false]
    exact lookupDriver_mapSet_self d { drv with isOnline := false, lastSeen := now2 } st.drivers

/-- Claim C4 witness: the amended statement evaluated at a concrete
bound connection and registered driver. -/
theorem c4_disconnect_behaviour_witness :
    ((logiDisconnect ⟨[], [], [], []⟩ "s1" 3).driversDB.map (fun p => (p.1, p.2.isActive)))
      = ([] : List (String × DriverDoc)).map (fun p => (p.1, p.2.isActive)) ∧
    lookupConn "s1" (logiDisconnect ⟨[], [], [], []⟩ "s1" 3).activeConnections = none ∧
    lookupDriver "D1" (disconnectHandler false true c4st (some "D1") 10).drivers
      = some { (⟨"D1", "Alice", true, 0, some "s1"⟩ : DriverRec) with
               isOnline := false, lastSeen := 10 } :=
  c4_disconnect_behaviour ⟨[], [], [], []⟩ "s1" 3 (by decide) c4st "D1"
    ⟨"D1", "Alice", true, 0, some "s1"⟩ 10 (by decide)

def c5ld : LocationRec := ⟨"D5", "Eve", 1, 1, 0, 0, 0, 0, false⟩

/-- Claim C5: the History Buffer holds at most 100 samples per device.
One ingest step preserves the per-device bound of 100; when the device
already holds exactly 100 samples, the new sample evicts the oldest
(first-inserted) one, so the post-state history is the old history's
tail plus the new sample; samples of every other device are unaffected;
and the bound holds at every point of any sequence of ingests from a
bounded state. -/
theorem c5_history_cap (st : ServerState) (ld : LocationRec) (now : Nat)
    (h : (getDeviceLocations st ld.deviceId).length ≤ 100) :
    (getDeviceLocations (locationUpdate false true st ld now) ld.deviceId).length ≤ 100 ∧
    ((getDeviceLocations st ld.deviceId).length = 100 →
      getDeviceLocations (locationUpdate false true st ld now) ld.deviceId
        = (getDeviceLocations st ld.deviceId).tail ++ [liveLocation ld now]) ∧
    (∀ d2, d2 ≠ ld.deviceId →
      getDeviceLocations (locationUpdate false true st ld now) d2
        = getDeviceLocations st d2) ∧
    ((∀ d3, (getDeviceLocations st d3).length ≤ 100) →
      ∀ (pairs : List (LocationRec × Nat)) (d3 : String),
        (getDeviceLocations (ingestSeq false true st pairs) d3).length ≤ 100) := by
  refine ⟨?_, ?_, ?_, ?_⟩
  · rw [getDeviceLocations_step_self]
    by_cases hc : 100 < (getDeviceLocations st ld.deviceId).length + 1
    · rw [if_pos hc]
      simp [List.length_tail]
      omega
    · rw [if_neg hc]
      simp
      omega
  · intro h100
    rw [getDeviceLocations_step_self, if_pos (by omega)]
  · intro d2 hne
    exact getDeviceLocations_step_ne st ld now d2 hne
  · intro hall pairs d3
    exact seq_cap pairs st hall d3

/-- Claim C5 witness: the cap statement evaluated at a concrete
one-sample state. -/
theorem c5_history_cap_witness :
    (getDeviceLocations (locationUpdate false true ⟨[], [], []⟩ c5ld 1) c5ld.deviceId).length
      ≤ 100 :=
  (c5_history_cap ⟨[], [], []⟩ c5ld 1 (by decide)).1

def c6ld : LocationRec := ⟨"X", "Eve", 1, 2, 0, 0, 0, 0, false⟩

def c6drv : DriverRec := ⟨"X", "Eve", true, 0, some "s"⟩

/-- Claim C6 counterexample: a device that has reported a location but
was never registered (possible because the ingest path does not check
registration) is absent from the fleet-wide latest-locations query,
which iterates only the registered driver map. -/
theorem c6_unregistered_reporter_missing :
    latestLocations (locationUpdate false true ⟨[], [], []⟩ c6ld 9).drivers
        (locationUpdate false true ⟨[], [], []⟩ c6ld 9).locations = [] ∧
    (locationUpdate false true ⟨[], [], []⟩ c6ld 9).locations ≠ [] := by
  decide

/-- Claim C6 (amended): the fleet-wide latest-locations query returns
exactly one record for each registered device that has reported at
least one sample, namely the last-appended sample for that device; when
the device's buffered timestamps are non-decreasing in append order (as
produced by a monotone server clock) that record carries the maximum
timestamp among the device's samples. -/
theorem c6_latest_per_registered_device (dm : List (String × DriverRec))
    (locs : List LocationRec) (d : String) (m : LocationRec)
    (hn : (dm.map Prod.fst).Nodup) (hd : d ∈ dm.map Prod.fst)
    (hm : (locs.filter (fun l => l.deviceId == d)).getLast? = some m) :
    (latestLocations dm locs).filter (fun l => l.deviceId == d) = [m] ∧
    ((locs.filter (fun l => l.deviceId == d)).Pairwise
        (fun a b => a.timestamp ≤ b.timestamp) →
      ∀ x ∈ locs.filter (fun l => l.deviceId == d), x.timestamp ≤ m.timestamp) := by
  refine ⟨latestLocations_filter_mem d locs m dm hn hd hm, ?_⟩
  intro hs x hx
  exact sorted_getLast?_max _ m hs hm x hx

/-- Claim C6 witness: the amended statement at a concrete registry and
buffer. -/
theorem c6_latest_per_registered_device_witness :
    (latestLocations [("X", c6drv)] [liveLocation c6ld 9]).filter
        (fun l => l.deviceId == "X") = [liveLocation c6ld 9] :=
  (c6_latest_per_registered_device [("X", c6drv)] [liveLocation c6ld 9] "X"
      (liveLocation c6ld 9) (by decide) (by decide) (by decide)).1

def c7st : ServerState := Tracking.registerDriver false true ⟨[], [], []⟩ "s1" "D1" "Alice" 0

def c7ld1 : LocationRec := ⟨"D1", "Alice", 1, 1, 0, 0, 0, 1, false⟩

def c7ld2 : LocationRec := ⟨"D1", "Alice", 2, 2, 0, 0, 0, 2, false⟩

def c7ld3 : LocationRec := ⟨"D1", "Alice", 3, 3, 0, 0, 0, 3, false⟩

/-- Claim C7 counterexample: after registering a device and ingesting
two samples with increasing timestamps, the memory-mode per-device
history query returns the samples oldest first (the head of the result
is the older sample), not newest first as claimed. -/
theorem c7_history_oldest_first :
    getDeviceLocations
        (locationUpdate false true (locationUpdate false true c7st c7ld1 1) c7ld2 2) "D1"
      = [liveLocation c7ld1 1, liveLocation c7ld2 2] ∧
    (liveLocation c7ld1 1).timestamp < (liveLocation c7ld2 2).timestamp := by
  decide

/-- Claim C7 (amended): starting from a state with an empty buffer (for
example just after registering the device), ingesting any sequence of
at most 100 samples for one device makes the memory-mode per-device
history query return exactly those samples in insertion order (oldest
first), each entry equal to the input sample with its timestamp
replaced by the server ingest clock and its online snapshot forced
true. -/
theorem c7_history_matches_inputs (dm : List (String × DriverRec)) (ev : List Event)
    (pairs : List (LocationRec × Nat)) (d : String)
    (hd : ∀ p ∈ pairs, p.1.deviceId = d) (hlen : pairs.length ≤ 100) :
    getDeviceLocations (ingestSeq false true ⟨dm, [], ev⟩ pairs) d
      = pairs.map (fun p => liveLocation p.1 p.2) := by
  show (ingestSeq false true ⟨dm, [], ev⟩ pairs).locations.filter (fun l => l.deviceId == d)
      = pairs.map (fun p => liveLocation p.1 p.2)
  rw [ingestSeq_same_device d pairs ⟨dm, [], ev⟩ (by intro l hl; simp at hl) hd
    (by simpa using hlen)]
  simp only [List.nil_append]
  rw [List.filter_eq_self]
  intro a ha
  rcases List.mem_map.mp ha with ⟨p, hp, hpa⟩
  rw [← hpa]
  show ((liveLocation p.1 p.2).deviceId == d) = true
  simp [liveLocation, hd p hp]

/-- Claim C7 witness: the amended statement at the spec's three-sample
scenario after registering device D1. -/
theorem c7_history_matches_inputs_witness :
    getDeviceLocations (ingestSeq false true ⟨c7st.drivers, [], c7st.events⟩
        [(c7ld1, 1), (c7ld2, 2), (c7ld3, 3)]) "D1"
      = [liveLocation c7ld1 1, liveLocation c7ld2 2, liveLocation c7ld3 3] :=
  c7_history_matches_inputs c7st.drivers c7st.events [(c7ld1, 1), (c7ld2, 2), (c7ld3, 3)]
    "D1" (by decide) (by decide)

def c8drv : DriverDoc := ⟨"D1", "Alice", true, 300000, none⟩

/-- Claim C8 counterexample: a driver silent for exactly the staleness
threshold (lastSeen = now − T, hence no activity for at least T) is NOT
demoted by the next sweep tick, because the cleanup query uses a strict
comparison (lastSeen < now − T); its active flag stays true. -/
theorem c8_boundary_not_demoted :
    staleMs ≤ 600000 - c8drv.lastSeen ∧
    c8drv.isActive = true ∧
    (sweepTick 600000 [("D1", c8drv)]).1 = [("D1", c8drv)] := by
  decide

/-- Claim C8 (amended): on each tick the sweeper sets the active flag to
false exactly for drivers whose lastSeen is strictly older than
now − T, leaves more recent records unchanged, and — contrary to the
claim — fans out nothing (the tick body broadcasts no driver list); a
driver that is still active after a tick was recently seen, and a
location touch never changes any driver's active flag (only a register
restores it). -/
theorem c8_sweep_behaviour (now : Nat) (dm : List (String × DriverDoc)) :
    (sweepTick now dm).2 = [] ∧
    (∀ p, p ∈ dm → p.2.lastSeen < now - staleMs →
      (p.1, { p.2 with isActive := false }) ∈ (sweepTick now dm).1) ∧
    (∀ p, p ∈ dm → ¬ p.2.lastSeen < now - staleMs → p ∈ (sweepTick now dm).1) ∧
    (∀ q, q ∈ (sweepTick now dm).1 → q.2.isActive = true →
      q ∈ dm ∧ ¬ q.2.lastSeen < now - staleMs) ∧
    (∀ (st : LogiState) (sock : String) (ld : LocationDoc) (t : Nat),
      ((sendLocation st sock ld t).driversDB.map (fun p => (p.1, p.2.isActive)))
        = st.driversDB.map (fun p => (p.1, p.2.isActive))) := by
  refine ⟨rfl, ?_, ?_, ?_, ?_⟩
  · intro p hp hstale
    have hmem : (if p.2.lastSeen < now - staleMs
          then (p.1, { p.2 with isActive := false }) else p) ∈ (sweepTick now dm).1 :=
      List.mem_map_of_mem _ hp
    rwa [if_pos hstale] at hmem
  · intro p hp hrecent
    have hmem : (if p.2.lastSeen < now - staleMs
          then (p.1, { p.2 with isActive := false }) else p) ∈ (sweepTick now dm).1 :=
      List.mem_map_of_mem _ hp
    rwa [if_neg hrecent] at hmem
  · intro q hq hact
    rcases List.mem_map.mp hq with ⟨p, hp, hfp⟩
    by_cases hs : p.2.lastSeen < now - staleMs
    · rw [if_pos hs] at hfp
      rw [← hfp] at hact
      simp at hact
    · rw [if_neg hs] at hfp
      rw [← hfp]
      exact ⟨hp, hs⟩
  · intro st sock ld t
    cases hb : lookupConn sock st.activeConnections with
    | none => simp only [sendLocation, hb]
    | some ci =>
        simp only [sendLocation, hb]
        exact driverOnLocation_isActive ci.deviceId ld.latitude ld.longitude t st.driversDB

def c8stale : DriverDoc := ⟨"D2", "Bo", true, 0, none⟩

/-- Claim C8 witness: the amended statement applied to a driver stale by
more than the threshold, which the tick marks inactive. -/
theorem c8_sweep_behaviour_witness :
    ("D2", ({ c8stale with isActive := false } : DriverDoc))
      ∈ (sweepTick 600001 [("D2", c8stale)]).1 :=
  (c8_sweep_behaviour 600001 [("D2", c8stale)]).2.1 ("D2", c8stale) (by decide) (by decide)

/-- Unfolding of the `register-driver` handler when the durable write
does not throw (memory-only mode or reachable store). -/
theorem registerDriver_dbOk (db : Bool) (st : ServerState) (sock d n : String) (now : Nat) :
    registerDriver db true st sock d n now
      = { st with
          drivers := mapSet d ⟨d, n, true, now, some sock⟩ st.drivers,
          events := st.events ++ [Event.driversUpdated
            ((mapSet d ⟨d, n, true, now, some sock⟩ st.drivers).map Prod.snd)] } := by
  simp [registerDriver]

/-- Claim C9: registering the same deviceId with the same driverName
twice in succession (same or different connection) leaves the driver
map in the same state as a single registration performed by the second
call; the record for the device exists exactly once, carries
online = true, and differs from the once-registered record only in
lastSeen and socketId.  The `part_001` upsert path is idempotent in the
same way. -/
theorem c9_register_idempotent (db : Bool) (st : ServerState) (s1 s2 d n : String)
    (t1 t2 : Nat) (hn : (st.drivers.map Prod.fst).Nodup)
    (lm : List (String × DriverDoc)) (hlm : (lm.map Prod.fst).Nodup) :
    (registerDriver db true (registerDriver db true st s1 d n t1) s2 d n t2).drivers
      = (registerDriver db true st s2 d n t2).drivers ∧
    lookupDriver d
        (registerDriver db true (registerDriver db true st s1 d n t1) s2 d n t2).drivers
      = some ⟨d, n, true, t2, some s2⟩ ∧
    ((registerDriver db true (registerDriver db true st s1 d n t1) s2 d n t2).drivers.countP
        (fun p => p.1 == d)) = 1 ∧
    upsertDriver d n t2 (upsertDriver d n t1 lm) = upsertDriver d n t2 lm ∧
    (upsertDriver d n t2 lm).countP (fun p => p.1 == d) = 1 ∧
    (∀ p ∈ upsertDriver d n t2 lm, p.1 = d → p.2.isActive = true) := by
  have h1 : (registerDriver db true (registerDriver db true st s1 d n t1) s2 d n t2).drivers
      = mapSet d ⟨d, n, true, t2, some s2⟩ (mapSet d ⟨d, n, true, t1, some s1⟩ st.drivers) := by
    rw [registerDriver_dbOk, registerDriver_dbOk]
  have h2 : (registerDriver db true st s2 d n t2).drivers
      = mapSet d ⟨d, n, true, t2, some s2⟩ st.drivers := by
    rw [registerDriver_dbOk]
  refine ⟨?_, ?_, ?_, upsertDriver_upsertDriver d n t1 t2 lm,
    countP_upsertDriver_one d n t2 lm hlm, upsertDriver_isActive d n t2 lm hlm⟩
  · rw [h1, h2, mapSet_mapSet_self]
  · rw [h1, mapSet_mapSet_self]
    exact lookupDriver_mapSet_self d ⟨d, n, true, t2, some s2⟩ st.drivers
  · rw [h1, mapSet_mapSet_self]
    exact countP_mapSet_one d ⟨d, n, true, t2, some s2⟩ st.drivers hn

/-- Claim C9 witness: double registration on two different connections
evaluated on the empty state. -/
theorem c9_register_idempotent_witness :
    (registerDriver false true (registerDriver false true ⟨[], [], []⟩ "s1" "D1" "Alice" 1)
        "s2" "D1" "Alice" 2).drivers
      = (registerDriver false true ⟨[], [], []⟩ "s2" "D1" "Alice" 2).drivers :=
  (c9_register_idempotent false ⟨[], [], []⟩ "s1" "s2" "D1" "Alice" 1 2 (by decide)
    [] (by decide)).1

def c10rec : LocationRec := ⟨"D1", "Bob", 1, 2, 0, 99, 0, 0, false⟩

def c10doc : LocationDoc := ⟨"ignored", "Bob", 1, 2, 0, 5, 0, 0, false⟩

def c10st : LogiState := ⟨[("D1", ⟨"D1", "Bob", true, 0, none⟩)], [], [("s1", ⟨"D1", "Bob"⟩)], []⟩

/-- Claim C10 counterexample: on the `part_001` live `sendLocation`
path, a sample carrying client timestamp 5 ingested at server time 10
is recorded with timestamp 5 — the client capture timestamp is
preserved, not replaced by the server clock. -/
theorem c10_client_timestamp_kept :
    ((sendLocation c10st "s1" c10doc 10).locationsDB.map (fun l => l.timestamp)) = [5] ∧
    (5 : Nat) ≠ 10 := by
  decide

/-- Claim C10 (amended): on the `server.js` live path the recorded
sample's timestamp is the server ingest clock and its online snapshot
is forced true regardless of any client-supplied timestamp or online
value; on the `part_001` live `sendLocation` path the client-supplied
capture timestamp is preserved in the stored document (its online
snapshot is still forced true). -/
theorem c10_timestamp_paths (st : ServerState) (ld : LocationRec) (ts : Nat) (b : Bool)
    (now : Nat) (lst : LogiState) (sock : String) (ld2 : LocationDoc) (now2 : Nat)
    (ci : ConnInfo) (hb : lookupConn sock lst.activeConnections = some ci) :
    locationUpdate false true st { ld with timestamp := ts, isOnline := b } now
      = locationUpdate false true st ld now ∧
    (liveLocation ld now).timestamp = now ∧
    (liveLocation ld now).isOnline = true ∧
    (sendLocation lst sock ld2 now2).locationsDB
      = lst.locationsDB ++ [{ ld2 with deviceId := ci.deviceId, isOnline := true }] ∧
    ({ ld2 with deviceId := ci.deviceId, isOnline := true } : LocationDoc).timestamp
      = ld2.timestamp := by
  refine ⟨rfl, rfl, rfl, ?_, rfl⟩
  simp only [sendLocation, hb]

/-- Claim C10 witness: the amended statement evaluated at a concrete
bound connection and sample. -/
theorem c10_timestamp_paths_witness :
    locationUpdate false true ⟨[], [], []⟩ { c10rec with timestamp := 42, isOnline := true } 7
      = locationUpdate false true ⟨[], [], []⟩ c10rec 7 ∧
    (liveLocation c10rec 7).timestamp = 7 ∧
    (liveLocation c10rec 7).isOnline = true ∧
    (sendLocation c10st "s1" c10doc 10).locationsDB
      = c10st.locationsDB ++ [{ c10doc with deviceId := "D1", isOnline := true }] ∧
    ({ c10doc with deviceId := "D1", isOnline := true } : LocationDoc).timestamp
      = c10doc.timestamp :=
  c10_timestamp_paths ⟨[], [], []⟩ c10rec 42 true 7 c10st "s1" c10doc 10 ⟨"D1", "Bob"⟩
    (by decide)
